import Mathlib

/-!
Verification of the software-timer library (software_timer.c / timer.c).

The C code uses `uint32_t` tick counters; machine values are modelled as
`Nat` together with explicit reduction modulo `2^32` where the C arithmetic
can wrap.  The clock source (an injected callback) is modelled by passing
the tick value it would return (`now`) explicitly to every operation.
Functions that take a timer by pointer and may write it return the updated
record explicitly; functions whose bodies contain no writes pass it through
unchanged.
-/

/-- The modulus of the 32-bit unsigned tick counter, `2^32` = 4294967296. -/
def UINT32_MOD : Nat := 4294967296

/-- Wrapping 32-bit subtraction: the C expression `a - b` on `uint32_t`
operands, i.e. `(a - b) mod 2^32`, for operands `a b < UINT32_MOD`. -/
def wrapSub (a b : Nat) : Nat := (a + UINT32_MOD - b) % UINT32_MOD

/-- The `SoftwareTimer` struct of software_timer.h: `start` and `interval`
are `uint32_t`, `evaluated` is `bool`. -/
structure SoftwareTimer where
  start : Nat
  interval : Nat
  evaluated : Bool
deriving DecidableEq

/-- `SoftwareTimer_Set` (software_timer.c, lines 90-97): captures the clock
value as `start`, stores `interval`, and clears `evaluated`; the prior
timer state `t` is fully overwritten. -/
def SoftwareTimer_Set (now : Nat) (t : SoftwareTimer) (interval : Nat) : SoftwareTimer :=
  ⟨now, interval, false⟩

/-- `SoftwareTimer_IsExpired` (software_timer.c, lines 107-115): returns
`clockTime() - timer->start >= timer->interval` under wrapping `uint32_t`
subtraction; the body contains no write to the timer, so the state is
passed through unchanged. -/
def SoftwareTimer_IsExpired (now : Nat) (t : SoftwareTimer) : Bool × SoftwareTimer :=
  if wrapSub now t.start ≥ t.interval then (true, t) else (false, t)

/-- `SoftwareTimer_Remaining` (software_timer.c, lines 128-139): computes
`elapsed = clockTime() - timer->start` with wrapping subtraction, returns 0
when `elapsed >= interval`, else `interval - elapsed` (in that branch
`elapsed < interval`, so the `uint32_t` subtraction does not wrap and
equals truncated `Nat` subtraction); no write to the timer. -/
def SoftwareTimer_Remaining (now : Nat) (t : SoftwareTimer) : Nat × SoftwareTimer :=
  if wrapSub now t.start ≥ t.interval then (0, t)
  else (t.interval - wrapSub now t.start, t)

/-- `SoftwareTimer_IsExpiredEvaluatedOnce` (software_timer.c, lines
154-166): returns false when `evaluated` is already set; otherwise, when
expired, sets `evaluated` and returns true; otherwise returns false. -/
def SoftwareTimer_IsExpiredEvaluatedOnce (now : Nat) (t : SoftwareTimer) : Bool × SoftwareTimer :=
  if t.evaluated then (false, t)
  else if wrapSub now t.start ≥ t.interval then (true, ⟨t.start, t.interval, true⟩)
  else (false, t)

/-- The `Timer` struct of timer.h: same fields as `SoftwareTimer`. -/
structure Timer where
  start : Nat
  interval : Nat
  evaluated : Bool
deriving DecidableEq

/-- `Timer_Set` (timer.c, lines 38-42): writes `start` and `interval` only;
unlike `SoftwareTimer_Set`, the body contains no assignment to
`evaluated`, so that field keeps its prior value. -/
def Timer_Set (now : Nat) (t : Timer) (interval : Nat) : Timer :=
  ⟨now, interval, t.evaluated⟩

/-- `Timer_IsExpired` (timer.c, lines 55-61): same test as
`SoftwareTimer_IsExpired`; no write to the timer. -/
def Timer_IsExpired (now : Nat) (t : Timer) : Bool :=
  if wrapSub now t.start ≥ t.interval then true else false

/-- `Timer_Remaining` (timer.c, lines 73-82): same computation as
`SoftwareTimer_Remaining`. -/
def Timer_Remaining (now : Nat) (t : Timer) : Nat :=
  if wrapSub now t.start ≥ t.interval then 0
  else t.interval - wrapSub now t.start

/-- A sequence of `SoftwareTimer_IsExpiredEvaluatedOnce` calls at the given
clock readings, threading the timer state; returns the list of results and
the final timer state. -/
def runEvaluatedOnce (t : SoftwareTimer) : List Nat → List Bool × SoftwareTimer
  | [] => ([], t)
  | n :: ns =>
    let r := SoftwareTimer_IsExpiredEvaluatedOnce n t
    let rest := runEvaluatedOnce r.2 ns
    (r.1 :: rest.1, rest.2)

/-- The spec's description of the one-shot call sequence from the Armed
state: the first call that observes `elapsed >= interval` yields `true`,
every call before it (not yet expired) and after it yields `false`. -/
def onceSpecList (s iv : Nat) : List Nat → List Bool
  | [] => []
  | n :: ns =>
    if iv ≤ wrapSub n s then true :: ns.map (fun _ => false)
    else false :: onceSpecList s iv ns

-- Helper lemmas ------------------------------------------------------------

theorem isExpired_val (now : Nat) (t : SoftwareTimer) :
    (SoftwareTimer_IsExpired now t).1 = decide (t.interval ≤ wrapSub now t.start) := by
  by_cases h : t.interval ≤ wrapSub now t.start <;>
    simp [SoftwareTimer_IsExpired, h]

theorem remaining_val (now : Nat) (t : SoftwareTimer) :
    (SoftwareTimer_Remaining now t).1 =
      if t.interval ≤ wrapSub now t.start then 0
      else t.interval - wrapSub now t.start := by
  by_cases h : t.interval ≤ wrapSub now t.start <;>
    simp [SoftwareTimer_Remaining, h]

theorem wrapSub_self (a : Nat) : wrapSub a a = 0 := by
  unfold wrapSub UINT32_MOD
  omega

/-- Advancing the clock by `d` ticks from a reading `s < 2^32` makes the
wrapped elapsed count `d % 2^32`, regardless of wraparound. -/
theorem elapsed_advance (s d : Nat) (hs : s < UINT32_MOD) :
    wrapSub ((s + d) % UINT32_MOD) s = d % UINT32_MOD := by
  unfold wrapSub UINT32_MOD at *
  omega

-- Claim theorems ------------------------------------------------------------

/-- C2: for every timer state and every clock value `now`, evaluated at the
same clock reading, `SoftwareTimer_IsExpired` returns true if and only if
`SoftwareTimer_Remaining` returns 0. -/
theorem expired_iff_remaining_zero (now : Nat) (t : SoftwareTimer) :
    (SoftwareTimer_IsExpired now t).1 = true ↔ (SoftwareTimer_Remaining now t).1 = 0 := by
  rw [isExpired_val, remaining_val]
  by_cases h : t.interval ≤ wrapSub now t.start <;> simp [h] <;> omega

/-- C5: immediately after `SoftwareTimer_Set t i`, with the clock returning
the same tick value as during the `Set` call, `Remaining` returns `i` and
`IsExpired` returns true exactly when `i = 0`. -/
theorem set_roundtrip (tPrev : SoftwareTimer) (now0 iv : Nat) :
    (SoftwareTimer_Remaining now0 (SoftwareTimer_Set now0 tPrev iv)).1 = iv ∧
    (SoftwareTimer_IsExpired now0 (SoftwareTimer_Set now0 tPrev iv)).1 = decide (iv = 0) := by
  rw [remaining_val, isExpired_val]
  simp [SoftwareTimer_Set, wrapSub_self, Nat.le_zero]
  exact fun h => h.symm

/-- C4 counterexample: `Timer_Set` (timer.c) does not clear `evaluated`;
re-arming a timer whose flag is set leaves the flag set, contradicting the
claim that `evaluated` is false after every `Set` call. -/
theorem timer_set_evaluated_cex : (Timer_Set 5 ⟨0, 0, true⟩ 7).evaluated ≠ false := by
  decide

/-- C4 amended: `SoftwareTimer_Set` reads the clock value `now` and leaves
the timer in state `start = now`, `interval = interval`,
`evaluated = false`, regardless of prior state; the sibling `Timer_Set`
writes `start = now` and `interval = interval` but leaves `evaluated`
unchanged from its prior value. -/
theorem set_fields (tS : SoftwareTimer) (tT : Timer) (now iv : Nat) :
    SoftwareTimer_Set now tS iv = ⟨now, iv, false⟩ ∧
    Timer_Set now tT iv = ⟨now, iv, tT.evaluated⟩ :=
  ⟨rfl, rfl⟩

/-- C9: `IsExpired` and `Remaining` leave the timer record unchanged;
`IsExpiredEvaluatedOnce` leaves `start` and `interval` unchanged and writes
`evaluated` only on the single transition call where it returns true,
changing it from false to true; on a call returning false the record is
unchanged. -/
theorem query_frame (now : Nat) (t : SoftwareTimer) :
    (SoftwareTimer_IsExpired now t).2 = t ∧
    (SoftwareTimer_Remaining now t).2 = t ∧
    (SoftwareTimer_IsExpiredEvaluatedOnce now t).2.start = t.start ∧
    (SoftwareTimer_IsExpiredEvaluatedOnce now t).2.interval = t.interval ∧
    ((SoftwareTimer_IsExpiredEvaluatedOnce now t).1 = true →
      t.evaluated = false ∧ (SoftwareTimer_IsExpiredEvaluatedOnce now t).2.evaluated = true) ∧
    ((SoftwareTimer_IsExpiredEvaluatedOnce now t).1 = false →
      (SoftwareTimer_IsExpiredEvaluatedOnce now t).2 = t) := by
  unfold SoftwareTimer_IsExpired SoftwareTimer_Remaining SoftwareTimer_IsExpiredEvaluatedOnce
  split_ifs with h1 h2 <;> simp_all

/-- C9 witness: at `now = 0` on the armed timer `⟨0, 0, false⟩` the one-shot
query returns true and the returned record has `evaluated = true`. -/
theorem query_frame_witness :
    (SoftwareTimer_IsExpiredEvaluatedOnce 0 ⟨0, 0, false⟩).2.evaluated = true :=
  ((query_frame 0 ⟨0, 0, false⟩).2.2.2.2.1 (by decide)).2

/-- C10: on identical field values and the same clock reading, the two
sibling implementations agree: `Timer_IsExpired` equals
`SoftwareTimer_IsExpired` and `Timer_Remaining` equals
`SoftwareTimer_Remaining`. -/
theorem sibling_equiv (s iv : Nat) (ev : Bool) (now : Nat) :
    Timer_IsExpired now ⟨s, iv, ev⟩ = (SoftwareTimer_IsExpired now ⟨s, iv, ev⟩).1 ∧
    Timer_Remaining now ⟨s, iv, ev⟩ = (SoftwareTimer_Remaining now ⟨s, iv, ev⟩).1 := by
  constructor <;> by_cases h : iv ≤ wrapSub now s <;>
    simp [Timer_IsExpired, Timer_Remaining, SoftwareTimer_IsExpired,
      SoftwareTimer_Remaining, h]

/-- C1: arming at `start = 2^32 - k` and advancing the clock `k + m` ticks
past the `2^32` boundary (with `m < interval`, all within one counter
period), the elapsed count is computed as `(now - start) mod 2^32 = k + m`,
`IsExpired` returns `elapsed >= interval`, and `Remaining` returns
`interval - (k + m)`, exactly as if no wraparound had occurred. -/
theorem wraparound_correct (tPrev : SoftwareTimer) (k m iv : Nat)
    (hk : 0 < k) (hkM : k ≤ UINT32_MOD) (hiv : iv < UINT32_MOD) (hm : m < iv)
    (hkm : k + m < UINT32_MOD) :
    wrapSub ((UINT32_MOD - k + (k + m)) % UINT32_MOD) (UINT32_MOD - k) = k + m ∧
    (SoftwareTimer_IsExpired ((UINT32_MOD - k + (k + m)) % UINT32_MOD)
        (SoftwareTimer_Set (UINT32_MOD - k) tPrev iv)).1 = decide (iv ≤ k + m) ∧
    (SoftwareTimer_Remaining ((UINT32_MOD - k + (k + m)) % UINT32_MOD)
        (SoftwareTimer_Set (UINT32_MOD - k) tPrev iv)).1 = iv - (k + m) := by
  have hs : UINT32_MOD - k < UINT32_MOD := by unfold UINT32_MOD at *; omega
  have he : wrapSub ((UINT32_MOD - k + (k + m)) % UINT32_MOD) (UINT32_MOD - k) = k + m := by
    rw [elapsed_advance _ _ hs]
    exact Nat.mod_eq_of_lt hkm
  refine ⟨he, ?_, ?_⟩
  · rw [isExpired_val]
    simp only [SoftwareTimer_Set, he]
  · rw [remaining_val]
    simp only [SoftwareTimer_Set, he]
    split_ifs with h
    · omega
    · rfl

/-- C1 witness: spec example 3 — clock at `2^32 - 50`, `Set(t, 100)`,
advance 75 ticks (the counter wraps to 24): elapsed is 75, the timer is not
expired and 25 ticks remain. -/
theorem wraparound_correct_witness :
    (SoftwareTimer_IsExpired ((UINT32_MOD - 50 + (50 + 25)) % UINT32_MOD)
        (SoftwareTimer_Set (UINT32_MOD - 50) ⟨0, 0, false⟩ 100)).1 = decide (100 ≤ 50 + 25) ∧
    (SoftwareTimer_Remaining ((UINT32_MOD - 50 + (50 + 25)) % UINT32_MOD)
        (SoftwareTimer_Set (UINT32_MOD - 50) ⟨0, 0, false⟩ 100)).1 = 100 - (50 + 25) :=
  ⟨(wraparound_correct ⟨0, 0, false⟩ 50 25 100 (by decide) (by decide) (by decide)
      (by decide) (by decide)).2.1,
   (wraparound_correct ⟨0, 0, false⟩ 50 25 100 (by decide) (by decide) (by decide)
      (by decide) (by decide)).2.2⟩

/-- C6: once `IsExpired` reports true on an armed timer, it reports true at
every later clock value reached without re-arming, as long as the timer is
queried within one full `2^32`-tick clock period of being armed. -/
theorem expired_stays_expired (tPrev : SoftwareTimer) (now0 iv d1 d2 : Nat)
    (h0 : now0 < UINT32_MOD) (h12 : d1 ≤ d2) (h2 : d2 < UINT32_MOD)
    (h : (SoftwareTimer_IsExpired ((now0 + d1) % UINT32_MOD)
            (SoftwareTimer_Set now0 tPrev iv)).1 = true) :
    (SoftwareTimer_IsExpired ((now0 + d2) % UINT32_MOD)
        (SoftwareTimer_Set now0 tPrev iv)).1 = true := by
  rw [isExpired_val] at h ⊢
  simp only [SoftwareTimer_Set, decide_eq_true_eq] at h ⊢
  rw [elapsed_advance now0 d1 h0] at h
  rw [elapsed_advance now0 d2 h0]
  rw [Nat.mod_eq_of_lt (show d1 < UINT32_MOD by omega)] at h
  rw [Nat.mod_eq_of_lt h2]
  omega

/-- C6 witness: armed at tick 0 with interval 2, expired after 3 ticks,
still expired after 4 ticks. -/
theorem expired_stays_expired_witness :
    (SoftwareTimer_IsExpired ((0 + 4) % UINT32_MOD)
        (SoftwareTimer_Set 0 ⟨0, 0, false⟩ 2)).1 = true :=
  expired_stays_expired ⟨0, 0, false⟩ 0 2 3 4 (by decide) (by decide) (by decide) (by decide)

/-- C7: for tick advances `d1 ≤ d2` applied without re-arming, both within
one full `2^32`-tick clock period of arming, the value `Remaining` returns
after advancing `d2` is at most the value it returns after advancing `d1`. -/
theorem remaining_monotone (tPrev : SoftwareTimer) (now0 iv d1 d2 : Nat)
    (h0 : now0 < UINT32_MOD) (h12 : d1 ≤ d2) (h2 : d2 < UINT32_MOD) :
    (SoftwareTimer_Remaining ((now0 + d2) % UINT32_MOD)
        (SoftwareTimer_Set now0 tPrev iv)).1 ≤
      (SoftwareTimer_Remaining ((now0 + d1) % UINT32_MOD)
        (SoftwareTimer_Set now0 tPrev iv)).1 := by
  rw [remaining_val, remaining_val]
  simp only [SoftwareTimer_Set]
  rw [elapsed_advance _ _ h0, elapsed_advance _ _ h0]
  rw [Nat.mod_eq_of_lt (by omega : d1 < UINT32_MOD), Nat.mod_eq_of_lt h2]
  split_ifs <;> omega

/-- C7 witness: armed at tick 0 with interval 10, remaining after 7 ticks
is at most remaining after 3 ticks. -/
theorem remaining_monotone_witness :
    (SoftwareTimer_Remaining ((0 + 7) % UINT32_MOD)
        (SoftwareTimer_Set 0 ⟨0, 0, false⟩ 10)).1 ≤
      (SoftwareTimer_Remaining ((0 + 3) % UINT32_MOD)
        (SoftwareTimer_Set 0 ⟨0, 0, false⟩ 10)).1 :=
  remaining_monotone ⟨0, 0, false⟩ 0 10 3 7 (by decide) (by decide) (by decide)

/-- C8: a timer armed with the maximum interval `2^32 - 1` expires only
after the full range of ticks elapses: while the wrapped elapsed count
`(now - start) mod 2^32` is below `2^32 - 1`, `IsExpired` is false and
`Remaining` is nonzero; when the elapsed count reaches `2^32 - 1`,
`IsExpired` is true. -/
theorem max_interval_expiry (tPrev : SoftwareTimer) (s now : Nat) :
    (wrapSub now s < UINT32_MOD - 1 →
      (SoftwareTimer_IsExpired now (SoftwareTimer_Set s tPrev (UINT32_MOD - 1))).1 = false ∧
      (SoftwareTimer_Remaining now (SoftwareTimer_Set s tPrev (UINT32_MOD - 1))).1 ≠ 0) ∧
    (wrapSub now s = UINT32_MOD - 1 →
      (SoftwareTimer_IsExpired now (SoftwareTimer_Set s tPrev (UINT32_MOD - 1))).1 = true) := by
  rw [isExpired_val, remaining_val]
  simp only [SoftwareTimer_Set]
  constructor
  · intro h
    rw [if_neg (by omega)]
    simp only [decide_eq_false_iff_not]
    omega
  · intro h
    simp only [h, decide_eq_true_eq]
    omega

/-- C8 witness: armed at tick 0 with interval `2^32 - 1`; at tick 5 the
timer is not expired with nonzero remaining, and at elapsed `2^32 - 1` it
is expired. -/
theorem max_interval_expiry_witness :
    ((SoftwareTimer_IsExpired 5 (SoftwareTimer_Set 0 ⟨0, 0, false⟩ (UINT32_MOD - 1))).1 = false ∧
      (SoftwareTimer_Remaining 5 (SoftwareTimer_Set 0 ⟨0, 0, false⟩ (UINT32_MOD - 1))).1 ≠ 0) ∧
    (SoftwareTimer_IsExpired (UINT32_MOD - 1)
        (SoftwareTimer_Set 0 ⟨0, 0, false⟩ (UINT32_MOD - 1))).1 = true :=
  ⟨(max_interval_expiry ⟨0, 0, false⟩ 0 5).1 (by decide),
   (max_interval_expiry ⟨0, 0, false⟩ 0 (UINT32_MOD - 1)).2 (by decide)⟩

theorem getD_map_false (ns : List Nat) (i : Nat) :
    ((ns.map fun _ => false).getD i false) = false := by
  induction ns generalizing i with
  | nil => simp
  | cons n ns ih => cases i <;> simp [ih]

theorem count_true_map_false (ns : List Nat) :
    ((ns.map fun _ => false).count true) = 0 := by
  simp [List.count_replicate]

/-- Once `evaluated` is set, every further one-shot call returns false and
leaves the timer unchanged. -/
theorem runOnce_consumed (ns : List Nat) (t : SoftwareTimer) (h : t.evaluated = true) :
    runEvaluatedOnce t ns = (ns.map fun _ => false, t) := by
  induction ns with
  | nil => simp [runEvaluatedOnce]
  | cons n ns ih =>
    simp [runEvaluatedOnce, SoftwareTimer_IsExpiredEvaluatedOnce, h, ih]

/-- From the Armed state, the one-shot call sequence produces exactly the
spec's output list, and the final `evaluated` flag records whether any call
observed expiry. -/
theorem runOnce_armed (ns : List Nat) (s iv : Nat) :
    runEvaluatedOnce ⟨s, iv, false⟩ ns =
      (onceSpecList s iv ns, ⟨s, iv, ns.any fun n => decide (iv ≤ wrapSub n s)⟩) := by
  induction ns with
  | nil => simp [runEvaluatedOnce, onceSpecList]
  | cons n ns ih =>
    by_cases h : iv ≤ wrapSub n s
    · simp [runEvaluatedOnce, SoftwareTimer_IsExpiredEvaluatedOnce, onceSpecList, h,
        runOnce_consumed]
    · simp [runEvaluatedOnce, SoftwareTimer_IsExpiredEvaluatedOnce, onceSpecList, h, ih]

theorem onceSpecList_count (s iv : Nat) (ns : List Nat) :
    (onceSpecList s iv ns).count true =
      if ns.any (fun n => decide (iv ≤ wrapSub n s)) then 1 else 0 := by
  induction ns with
  | nil => simp [onceSpecList]
  | cons n ns ih =>
    by_cases h : iv ≤ wrapSub n s
    · simp [onceSpecList, h, List.count_cons, List.count_replicate]
    · simp [onceSpecList, h, List.count_cons, ih]

theorem onceSpecList_getD (s iv : Nat) (ns : List Nat) (i : Nat) (hi : i < ns.length) :
    (onceSpecList s iv ns).getD i false =
      (decide (iv ≤ wrapSub (ns.getD i 0) s) &&
        !((ns.take i).any fun n => decide (iv ≤ wrapSub n s))) := by
  induction ns generalizing i with
  | nil => simp at hi
  | cons n ns ih =>
    cases i with
    | zero => by_cases h : iv ≤ wrapSub n s <;> simp [onceSpecList, h]
    | succ i =>
      by_cases h : iv ≤ wrapSub n s
      · simp [onceSpecList, h, getD_map_false]
      · simp only [onceSpecList, if_neg h, List.getD_cons_succ, List.take_succ_cons,
          List.any_cons]
        rw [ih i (by simpa using hi)]
        simp [h]

/-- C3: for every sequence of `IsExpiredEvaluatedOnce` calls made after one
`Set` call (at clock readings `nows`), the number of calls returning true
is one when some call observes `elapsed >= interval` and zero otherwise;
the `evaluated` flag after the sequence records exactly that; and call `i`
returns true exactly when it observes `elapsed >= interval` while no
earlier call in the sequence did — so the first expiring call returns true
and every other call, before or after, returns false. -/
theorem onceQuery_exactly_once (tPrev : SoftwareTimer) (now0 iv : Nat) (nows : List Nat) :
    ((runEvaluatedOnce (SoftwareTimer_Set now0 tPrev iv) nows).1.count true =
      if nows.any (fun n => decide (iv ≤ wrapSub n now0)) then 1 else 0) ∧
    ((runEvaluatedOnce (SoftwareTimer_Set now0 tPrev iv) nows).2.evaluated =
      nows.any (fun n => decide (iv ≤ wrapSub n now0))) ∧
    (∀ i, i < nows.length →
      (runEvaluatedOnce (SoftwareTimer_Set now0 tPrev iv) nows).1.getD i false =
        (decide (iv ≤ wrapSub (nows.getD i 0) now0) &&
          !((nows.take i).any fun n => decide (iv ≤ wrapSub n now0)))) := by
  have harm : SoftwareTimer_Set now0 tPrev iv = ⟨now0, iv, false⟩ := rfl
  rw [harm, runOnce_armed]
  exact ⟨onceSpecList_count now0 iv nows, rfl,
    fun i hi => onceSpecList_getD now0 iv nows i hi⟩

/-- C3 witness: armed at tick 0 with interval 5 and queried at ticks 0, 5
and 10, the second call (index 1, the first to observe expiry) returns
true; exactly one call in the sequence returns true. -/
theorem onceQuery_exactly_once_witness :
    (runEvaluatedOnce (SoftwareTimer_Set 0 ⟨0, 0, false⟩ 5) [0, 5, 10]).1.getD 1 false = true ∧
    (runEvaluatedOnce (SoftwareTimer_Set 0 ⟨0, 0, false⟩ 5) [0, 5, 10]).1.count true = 1 := by
  constructor
  · rw [(onceQuery_exactly_once ⟨0, 0, false⟩ 0 5 [0, 5, 10]).2.2 1 (by decide)]
    decide
  · rw [(onceQuery_exactly_once ⟨0, 0, false⟩ 0 5 [0, 5, 10]).1]
    decide
